import Mathlib

/-!
# Verification of the 2ME domain-checker resolution engine

A shallow embedding, in Lean 4, of the core of `2ME.py`: the per-domain
`DomainStatus` record and its mutation primitives, the single-domain checks
(`TLDCheck`, `DNSCheck`, `WHOISCheck`), the per-record update logic of the
three batch checks (`NCAPICheck`, `GandiAPICheck`, `DomainrAPICheck`), the
driver (`process_domain`, the batch-stage filters, `get_sort_key`), together
with theorems settling the specification's claims about them.

Python strings are modelled as Lean `String`; the string helpers below are
written over the underlying `List Char` so that every definition reduces in
the kernel (Python slicing `s[:137]` is `List.take 137`, `len` is list
length, `k in s` is substring search, and so on).  Remote responses (DNS
answers, WHOIS text, HTTP/JSON payloads) are modelled as explicit oracle
values handed to each check; thread locks serialize record updates in the
source, so record mutation is modelled by pure state-passing functions.
-/

/-- Lowercase a string (Python `str.lower`), characterwise. -/
def strLower (s : String) : String := ⟨s.data.map Char.toLower⟩

/-- Substring search over char lists (Python `needle in hay`). -/
def listContainsSub (hay needle : List Char) : Bool :=
  match hay with
  | [] => needle.isPrefixOf ([] : List Char)
  | _ :: t => needle.isPrefixOf hay || listContainsSub t needle

/-- Substring containment test (Python `needle in hay`). -/
def strContainsSub (hay needle : String) : Bool :=
  listContainsSub hay.data needle.data

/-- Python `s.endswith(t)`. -/
def strEndsWith (s t : String) : Bool :=
  t.data.reverse.isPrefixOf s.data.reverse

/-- Python `s[:n]`. -/
def strTake (s : String) (n : Nat) : String := ⟨s.data.take n⟩

/-- Split a char list at every occurrence of a separator char. -/
def splitOnChar (sep : Char) (l : List Char) : List (List Char) :=
  match l with
  | [] => [[]]
  | c :: t =>
    let rest := splitOnChar sep t
    if c = sep then [] :: rest
    else match rest with
      | [] => [[c]]
      | h :: r => (c :: h) :: r

/-- Python `domain.rsplit('.', 1)` for a string containing a dot:
everything before the last dot, and everything after it. -/
def rsplitDot (s : String) : String × String :=
  let parts := (splitOnChar '.' s.data).map String.mk
  (String.intercalate "." parts.dropLast, parts.getLastD "")

/-- Numeric value of a digit-only char list (helper for number parsing). -/
def digitsToNat (l : List Char) : Nat :=
  l.foldl (fun acc c => acc * 10 + (c.toNat - '0'.toNat)) 0

/-- Python `int(s)` on the strings the rule table carries: an optional sign
followed by digits; anything else raises `ValueError`, modelled as `none`. -/
def pyIntOfString (s : String) : Option Int :=
  match s.data with
  | [] => none
  | '-' :: rest =>
    if rest ≠ [] ∧ rest.all Char.isDigit then some (-(digitsToNat rest : Int)) else none
  | '+' :: rest =>
    if rest ≠ [] ∧ rest.all Char.isDigit then some ((digitsToNat rest : Int)) else none
  | l => if l.all Char.isDigit then some ((digitsToNat l : Int)) else none

/-- The availability states of a status record: Python
`None` / `True` / `'Premium'` / `False` for `is_available`. -/
inductive Avail where
  | unknown
  | available
  | premium
  | unavailable
deriving DecidableEq, Repr, BEq, Inhabited

/-- One entry of the TLD rule table (`tlds.json`): the keys the engine reads,
with the Python `dict.get` defaults standing in for absent keys.  The
`min_length` field is present in the table but — as in the source, where the
lookup is commented out at `TLDCheck.run` — never read by any check. -/
structure TldInfo where
  can_register : Bool := false
  min_length : String := "Unknown"
  max_length : String := "Unknown"
  restrictions : String := ""
  average_price : String := "N/A"
  premium : Bool := false
deriving DecidableEq, Repr, Inhabited

/-- Python `{}` passed to `set_tld_info`: every `dict.get` yields its default. -/
def emptyTldInfo : TldInfo := {}

/-- The Status Record (`DomainStatus.__init__`).  The per-record
`threading.Lock` serializes the mutation methods in the source; here the
serialized mutations are pure functions `DomainStatus → DomainStatus`. -/
structure DomainStatus where
  domain : String
  is_available : Avail := .unknown
  price : String := "N/A"
  reason : String := ""
  tld_info : TldInfo := emptyTldInfo
  restriction_flag : Bool := false
  checked_apis : List String := []
deriving DecidableEq, Repr, Inhabited

/-- A fresh record for a domain string (`DomainStatus(domain)`). -/
def initStatus (domain : String) : DomainStatus := { domain := domain }

/-- The 140-character reason cap used by all three reason-writing methods:
`combined[:137] + "..."` when over 140 characters, unchanged otherwise. -/
def capReason (s : String) : String :=
  if s.length > 140 then strTake s 137 ++ "..." else s

/-- `DomainStatus.add_reason`: appends `reason (method_name)` to the trail
with `"; "` separation, capped, but only while `is_available` is `None`;
a no-op once availability is determined.  The unused `positive` keyword
parameter of the source is omitted (its body never reads it). -/
def add_reason (ds : DomainStatus) (reason : String) (method_name : String) :
    DomainStatus :=
  let reason_str := if method_name ≠ "" then reason ++ " (" ++ method_name ++ ")" else reason
  if ds.is_available = .unknown then
    let combined_reason :=
      if ds.reason ≠ "" then ds.reason ++ "; " ++ reason_str else reason_str
    { ds with reason := capReason combined_reason }
  else
    ds

/-- The canned phrase `set_availability` builds when no custom reason is
given, suffixed with the method name when one is supplied. -/
def genericReason (v : Avail) (method_name : String) : String :=
  let base :=
    match v with
    | .available => "Domain is available"
    | .premium => "Domain is premium and available"
    | .unavailable => "Domain is registered"
    | .unknown => "All data was inconclusive"
  if method_name ≠ "" then base ++ " (" ++ method_name ++ ")" else base

/-- `DomainStatus.set_availability`: sets the verdict, keeps a real price
when one is supplied (Python truthiness plus the `"N/A"`/`"Unknown"`
sentinels), and overwrites the reason with the computed string — custom
reason if given (and truthy), else the canned phrase; with the TLD
restriction text appended when the verdict is `Available`, the restriction
flag is set and the stored restriction text is non-empty. -/
def set_availability (ds : DomainStatus) (v : Avail) (price : Option String)
    (method_name : String) (custom_reason : Option String) : DomainStatus :=
  let ds := { ds with is_available := v }
  let ds :=
    match price with
    | some p => if p ≠ "" ∧ p ≠ "N/A" ∧ p ≠ "Unknown" then { ds with price := p } else ds
    | none => ds
  let reason_str :=
    match custom_reason with
    | some c => if c ≠ "" then c else genericReason v method_name
    | none => genericReason v method_name
  if v = .available ∨ v = .premium ∨ v = .unavailable then
    let combined_reason :=
      if v = .available ∧ ds.restriction_flag ∧ ds.tld_info.restrictions ≠ "" then
        reason_str ++ "; " ++ ds.tld_info.restrictions
      else reason_str
    { ds with reason := capReason combined_reason }
  else
    { ds with reason := capReason reason_str }

/-- `DomainStatus.set_reason`: direct overwrite, capped. -/
def set_reason (ds : DomainStatus) (reason : String) : DomainStatus :=
  { ds with reason := capReason reason }

/-- Python `average_price.replace(',', '.')` (single-character replace). -/
def commaToDot (s : String) : String :=
  ⟨s.data.map (fun c => if c = ',' then '.' else c)⟩

/-- `DomainStatus.set_tld_info`: stores the TLD metadata, raises the
restriction flag when a real restriction text is present, and adopts the
table's average price as default price when it is a real value.  In the
source this method mutates the record without taking the per-record lock. -/
def set_tld_info (ds : DomainStatus) (tld_info : TldInfo) : DomainStatus :=
  let ds := { ds with tld_info := tld_info }
  let ds :=
    if tld_info.restrictions ≠ "" ∧ tld_info.restrictions ≠ "No known restrictions" then
      { ds with restriction_flag := true }
    else ds
  if tld_info.average_price ≠ "N/A" ∧ tld_info.average_price ≠ "Unknown" then
    { ds with price := commaToDot tld_info.average_price }
  else ds

/-! ## Single-domain checks -/

/-- `TLDCheck.run`: structural validation against the TLD rule table.
Returns the updated record and the "availability determined" flag.  The
minimum label length is the hardcoded constant `1` (the table lookup is
commented out in the source); the maximum comes from the table via
`int(...)`, with a parse failure or a zero value disabling the bound. -/
def TLDCheck_run (tlds_dict : String → Option TldInfo) (ds : DomainStatus) :
    DomainStatus × Bool :=
  let method_name := "TLDCheck"
  if ¬ ds.domain.data.contains '.' then
    (set_availability ds .unavailable none method_name (some "Invalid domain format"), true)
  else
    let sld := (rsplitDot ds.domain).1
    let tld := strLower (rsplitDot ds.domain).2
    let ds := set_tld_info ds emptyTldInfo
    match tlds_dict tld with
    | none =>
      (set_availability ds .unavailable none method_name (some "TLD not recognized"), true)
    | some tld_info =>
      let ds := set_tld_info ds tld_info
      if ¬ tld_info.can_register then
        let reason :=
          if tld_info.restrictions ≠ "" then
            "TLD cannot be registered" ++ "; " ++ tld_info.restrictions
          else "TLD cannot be registered"
        (set_availability ds .unavailable none method_name (some reason), true)
      else
        let sld_length := sld.length
        let max_length := pyIntOfString tld_info.max_length
        let length_issues :=
          (if sld_length < 1 then ["too short (min 1)"] else []) ++
          (match max_length with
           | some m => if m ≠ 0 ∧ (sld_length : Int) > m then
               ["too long (max " ++ toString m ++ ")"] else []
           | none => [])
        if length_issues ≠ [] then
          (set_availability ds .unavailable none method_name
            (some (String.intercalate ", " length_issues)), true)
        else
          (ds, false)

/-- The outcome `dns.resolver.resolve(domain, rtype)` can have for one record
type: an answer list (with the address text of each answer, read only for the
`.ws` placeholder test), or one of the exception classes the source
distinguishes: the caught trio `NoAnswer`/`NXDOMAIN`/`Timeout`, or any other
error (logged).  Either exception aborts the whole record-type loop. -/
inductive DnsAnswer where
  | records (addrs : List String)
  | noAnswer
  | nxdomain
  | timeout
  | otherError
deriving DecidableEq, Repr

/-- The loop body of `DNSCheck.run` over the remaining record types. -/
def dnsGo (resolve : String → DnsAnswer) (types : List String) (ds : DomainStatus) :
    DomainStatus × Bool :=
  match types with
  | [] => (ds, false)
  | record_type :: rest =>
    match resolve record_type with
    | .records addrs =>
      if addrs ≠ [] then
        if strEndsWith ds.domain ".ws" ∧ record_type = "A" ∧
            addrs.headD "" = "64.70.19.203" then
          (ds, false)
        else
          (set_availability ds .unavailable none "DNSCheck"
            (some (record_type ++ " records found (domain is registered)")), true)
      else dnsGo resolve rest ds
    | _ => (ds, false)

/-- `DNSCheck.run`: queries the fixed record-type list `['A','MX','NS']` in
order; any non-empty answer marks the domain registered, except the `.ws`
parking placeholder `64.70.19.203` on an `A` answer, which ends the check
inconclusively; any lookup exception also ends the check inconclusively
(silently — no reason is ever appended by this check). -/
def DNSCheck_run (resolve : String → DnsAnswer) (ds : DomainStatus) :
    DomainStatus × Bool :=
  dnsGo resolve ["A", "MX", "NS"] ds

/-- A WHOIS lookup outcome: a response object (raw text plus the truthiness
of its `creation_date` and `registrar` attributes), or a raised exception
carrying a message. -/
inductive WhoisOutcome where
  | ok (text : String) (creation_date : Bool) (registrar : Bool)
  | err (msg : String)
deriving DecidableEq, Repr

/-- Keywords whose presence in the response text marks the domain available. -/
def whoisAvailKeywords : List String :=
  ["available for purchase", "this domain is available for registration",
   "domain status: available"]

/-- Keywords marking the domain disallowed or reserved. -/
def whoisDisallowKeywords : List String :=
  ["this domain is not allowed", "domain cannot be registered", "prohibited string"]

/-- Keywords in a raised error's message that mark the domain available. -/
def whoisErrAvailKeywords : List String :=
  ["no match for", "not found", "no data found", "available for purchase",
   "this domain is available for registration", "domain status: available",
   "data not found", "is free"]

/-- `WHOISCheck.run`: classifies the response text (or the error message)
against the keyword sets, falls back to registration metadata, and reports
"availability determined" exactly when `is_available` is no longer `None`. -/
def WHOISCheck_run (outcome : WhoisOutcome) (ds : DomainStatus) :
    DomainStatus × Bool :=
  let method_name := "WHOISCheck"
  let ds :=
    match outcome with
    | .ok text creation_date registrar =>
      if text ≠ "" then
        let raw_text := strLower text
        if whoisAvailKeywords.any (fun k => strContainsSub raw_text k) then
          set_availability ds .available none method_name none
        else if whoisDisallowKeywords.any (fun k => strContainsSub raw_text k) then
          set_availability ds .unavailable none method_name
            (some "Domain is not allowed or reserved")
        else if creation_date ∨ registrar then
          set_availability ds .unavailable none method_name none
        else
          add_reason ds "WHOIS data inconclusive" method_name
      else
        add_reason ds "WHOIS data empty" method_name
    | .err msg =>
      let error_message := strLower msg
      if whoisErrAvailKeywords.any (fun k => strContainsSub error_message k) then
        set_availability ds .available none method_name none
      else if ds.is_available = .unknown then
        add_reason ds "WHOIS error" method_name
      else ds
  (ds, ds.is_available ≠ .unknown)

/-! ## Batch checks: per-record update logic -/

/-- One item of the bulk registrar (`NCAPICheck`) response for a domain. -/
structure NCResp where
  source : String
  available : Bool
  premium : Bool
  average_price : String
deriving DecidableEq, Repr

/-- The `NCAPICheck.run` update applied to the record matching one response
item: records provenance, treats the `source == 'n/a'` sentinel as
inconclusive, and otherwise maps the `available`/`premium` flag pair to a
verdict, carrying the quoted average price. -/
def NCAPICheck_update (info : NCResp) (ds : DomainStatus) : DomainStatus :=
  let method_name := "NCAPICheck"
  let ds := { ds with checked_apis := ds.checked_apis ++ ["NCAPICheck"] }
  if info.source = "n/a" then
    add_reason ds "Inconclusive" method_name
  else if info.available then
    if info.premium then
      set_availability ds .premium (some info.average_price) method_name none
    else
      set_availability ds .available (some info.average_price) method_name none
  else
    set_availability ds .unavailable none method_name none

/-- The `GandiAPICheck.run` update applied to one record of the current
batch, given what the parsed event stream recorded for its domain in
`domain_availability` (`none` when the stream said nothing) and in
`domain_prices`.  An `available` verdict is applied only if the record is
not already `Premium`; `unavailable` and `invalid` map to a registered
verdict; a premium flag maps to `Premium` with the streamed price. -/
def GandiAPICheck_update (availability : Option String) (priceOf : Option String)
    (ds : DomainStatus) : DomainStatus :=
  let method_name := "GandiAPICheck"
  let ds := { ds with checked_apis := ds.checked_apis ++ ["GandiAPICheck"] }
  match availability with
  | some a =>
    if a = "available" then
      if ds.is_available ≠ .premium then
        set_availability ds .available (some (priceOf.getD "Unknown")) method_name none
      else ds
    else if a = "unavailable" then
      set_availability ds .unavailable none method_name none
    else if a = "invalid" then
      set_availability ds .unavailable none method_name none
    else if a = "premium" then
      set_availability ds .premium (some (priceOf.getD "Unknown")) method_name none
    else
      add_reason ds "Inconclusive" method_name
  | none => add_reason ds "Inconclusive" method_name

/-- The first status item of a Domainr response for one domain: its summary
string and, when present, an `average_price` value. -/
structure DomainrStatus where
  summary : String
  average_price : Option String
deriving DecidableEq, Repr

/-- The `DomainrAPICheck.run` (`process_single_domain`) update applied to the
record for one domain once a status item arrived: `inactive`/`undelegated`
confirm availability only when the record is still `Unknown` (an existing
`Available` is left alone, and so is anything else); `active`, `reserved`,
`parked` and `disallowed` mark it registered; `premium` upgrades with the
response price when it is a real value, else retains the record's price; any
other summary is appended verbatim as an inconclusive note. -/
def DomainrAPICheck_update (info : DomainrStatus) (ds : DomainStatus) : DomainStatus :=
  let method_name := "DomainrAPICheck"
  let ds0 := { ds with checked_apis := ds.checked_apis ++ ["DomainrAPICheck"] }
  if info.summary = "inactive" ∨ info.summary = "undelegated" then
    if ds0.is_available = .available then ds0
    else if ds0.is_available = .unknown then
      let ds1 := set_availability ds0 .available none method_name none
      if ds1.restriction_flag ∧ ds1.tld_info.restrictions ≠ "" then
        add_reason ds1 ds1.tld_info.restrictions method_name
      else ds1
    else ds0
  else if info.summary = "active" ∨ info.summary = "reserved" ∨
      info.summary = "parked" then
    set_availability ds0 .unavailable none method_name none
  else if info.summary = "disallowed" then
    set_availability ds0 .unavailable none method_name none
  else if info.summary = "premium" then
    let average_price := info.average_price.getD ds0.price
    if average_price ≠ "N/A" ∧ average_price ≠ "Unknown" then
      set_availability ds0 .premium (some average_price) method_name none
    else
      set_availability ds0 .premium (some ds0.price) method_name none
  else
    add_reason ds0 info.summary method_name

/-! ## Pipeline driver -/

/-- A single-domain check together with the remote-world data its run
observes (the TLD table, the DNS resolver's answers, the WHOIS outcome). -/
inductive SingleCheck where
  | tld (tlds_dict : String → Option TldInfo)
  | dns (resolve : String → DnsAnswer)
  | whois (outcome : WhoisOutcome)

/-- Dispatch of `method.run(domain_status)` for a single-domain check. -/
def runSingle (m : SingleCheck) (ds : DomainStatus) : DomainStatus × Bool :=
  match m with
  | .tld tlds_dict => TLDCheck_run tlds_dict ds
  | .dns resolve => DNSCheck_run resolve ds
  | .whois outcome => WHOISCheck_run outcome ds

/-- The loop of `process_domain`: run each single-domain check in order and
break out of the loop as soon as a check signalled "availability determined"
*and* the record's availability is set *and* it equals `Unavailable`
(`is_available == False`); in every other case the loop continues with the
remaining checks. -/
def processGo (methods : List SingleCheck) (ds : DomainStatus) : DomainStatus :=
  match methods with
  | [] => ds
  | m :: rest =>
    let r := runSingle m ds
    if r.2 ∧ r.1.is_available ≠ .unknown ∧ r.1.is_available = .unavailable then
      r.1
    else
      processGo rest r.1

/-- `process_domain`: a fresh record for the domain, then the single-domain
checks in sequence with the break rule of `processGo`. -/
def process_domain (domain : String) (methods_sequence : List SingleCheck) :
    DomainStatus :=
  processGo methods_sequence (initStatus domain)

/-- A batch stage together with its remote-world data, keyed by domain:
the bulk registrar response items, the parsed suggestion stream's
availability and price maps, or the per-domain confirmation responses
(`none` models an HTTP failure or an empty status list, which leaves the
record untouched). -/
inductive BatchStage where
  | ncapi (resp : String → Option NCResp)
  | gandi (availabilityOf : String → Option String) (priceOf : String → Option String)
  | domainr (resp : String → Option DomainrStatus)

/-- The driver's per-stage working-set filter (`main`, batch-method loop):
the bulk registrar stage takes records whose availability is `True` or
`None`; the other two stages take records whose availability is `None`. -/
def batchFilter (st : BatchStage) (ds : DomainStatus) : Bool :=
  match st with
  | .ncapi _ => ds.is_available == .available || ds.is_available == .unknown
  | .gandi _ _ => ds.is_available == .unknown
  | .domainr _ => ds.is_available == .unknown

/-- The update a batch stage applies to one working-set record. -/
def stageUpdate (st : BatchStage) (ds : DomainStatus) : DomainStatus :=
  match st with
  | .ncapi resp =>
    match resp ds.domain with
    | some info => NCAPICheck_update info ds
    | none => ds
  | .gandi availabilityOf priceOf =>
    GandiAPICheck_update (availabilityOf ds.domain) (priceOf ds.domain) ds
  | .domainr resp =>
    match resp ds.domain with
    | some info => DomainrAPICheck_update info ds
    | none => ds

/-- One batch stage over the full record list: each record passing the
working-set filter — evaluated on its *current* state — receives the stage's
update; every other record is left untouched. -/
def runStage (st : BatchStage) (statuses : List DomainStatus) : List DomainStatus :=
  statuses.map (fun ds => if batchFilter st ds then stageUpdate st ds else ds)

/-- The driver's batch-method loop: the stages in order, each filtering the
record list afresh (after the previous stage completed) before updating. -/
def runBatches (stages : List BatchStage) (statuses : List DomainStatus) :
    List DomainStatus :=
  match stages with
  | [] => statuses
  | st :: rest => runBatches rest (runStage st statuses)

/-! ## Final ordering -/

/-- An exact decimal number `num / 10 ^ exp`, the value of a parsed price
string.  Prices are plain decimal numerals, on which Python's `float`
comparison agrees with exact decimal comparison. -/
structure Dec where
  num : Int
  exp : Nat
deriving DecidableEq, Repr

/-- Strict order on decimals by cross-multiplication with powers of ten. -/
def decLt (a b : Dec) : Bool :=
  decide (a.num * (10 : Int) ^ b.exp < b.num * (10 : Int) ^ a.exp)

/-- Python `float(ds.price)` on the plain decimal numerals prices take
(optional sign, digits, optional fractional part); any other string raises,
modelled as `none` (which the sort treats as `float('inf')`). -/
def pyFloatOfString (s : String) : Option Dec :=
  let signBody : Int × List Char :=
    match s.data with
    | '-' :: rest => (-1, rest)
    | '+' :: rest => (1, rest)
    | l => (1, l)
  match splitOnChar '.' signBody.2 with
  | [i] =>
    if i ≠ [] ∧ i.all Char.isDigit then
      some ⟨signBody.1 * (digitsToNat i : Int), 0⟩
    else none
  | [i, f] =>
    if (i ≠ [] ∨ f ≠ []) ∧ i.all Char.isDigit ∧ f.all Char.isDigit then
      some ⟨signBody.1 * ((digitsToNat i : Int) * (10 : Int) ^ f.length +
        (digitsToNat f : Int)), f.length⟩
    else none
  | _ => none

/-- The availability-priority component of `get_sort_key`. -/
def availabilityPriority (ds : DomainStatus) : Nat :=
  match ds.is_available with
  | .available => if ds.restriction_flag then 2 else 1
  | .premium => 3
  | .unavailable => 4
  | .unknown => 5

/-- `get_sort_key`: the pair (availability priority, parsed price), the
second component `none` standing for `float('inf')`. -/
def get_sort_key (ds : DomainStatus) : Nat × Option Dec :=
  (availabilityPriority ds, pyFloatOfString ds.price)

/-- Strict order on the price component: `none` is `+infinity`. -/
def priceLtB : Option Dec → Option Dec → Bool
  | some a, some b => decLt a b
  | some _, none => true
  | none, _ => false

/-- Python tuple `<` on sort keys: lexicographic, price ties broken never
(equal keys are not `<`). -/
def sortKeyLt (a b : Nat × Option Dec) : Bool :=
  decide (a.1 < b.1) || (a.1 == b.1 && priceLtB a.2 b.2)

/-- `DomainStatus.get_plain_availability`: the availability string of the
finalized output tuple.  A record whose `is_available` is `True` but whose
TLD metadata carries the premium flag reports `"Premium"`; the restricted
and unrestricted `Available` branches both report `"Available"`. -/
def get_plain_availability (ds : DomainStatus) : String :=
  match ds.is_available with
  | .available => if ds.tld_info.premium then "Premium" else "Available"
  | .premium => "Premium"
  | .unavailable => "Not available"
  | .unknown => "Unknown"

/-- Modelled from the spec (claim C10's words): the availability-class
priority derived from the record's finalized output tuple — the class
reported by `get_plain_availability`, split by the restricted flag for
`Available` — as opposed to the priority `get_sort_key` actually computes. -/
def claimClassPriority (ds : DomainStatus) : Nat :=
  if get_plain_availability ds = "Available" then
    (if ds.restriction_flag then 2 else 1)
  else if get_plain_availability ds = "Premium" then 3
  else if get_plain_availability ds = "Not available" then 4
  else 5

/-! ## Lock discipline

The source serializes some record mutations under the per-record
`threading.Lock` and performs others without it.  The table below lists
every site in the source that writes a Status Record field, which of the
spec's record fields it writes, and whether the write happens inside a
`with self.lock` block. -/

/-- The Status Record fields named by the spec's data model. -/
inductive RecordField where
  | availability
  | price
  | reason
  | tld_metadata
  | restricted
  | sources_consulted
deriving DecidableEq, Repr

/-- One source site that mutates Status Record fields. -/
structure MutationSite where
  site : String
  fields : List RecordField
  under_lock : Bool
deriving DecidableEq, Repr

/-- Every field-mutating site of the source: the three reason-writing
methods acquire the lock; `set_tld_info` writes `tld_info`,
`restriction_flag` and `price` with no lock acquisition; and the three batch
checks append to `checked_apis` (the provenance list) outside any lock. -/
def mutationSites : List MutationSite :=
  [⟨"DomainStatus.add_reason", [.reason], true⟩,
   ⟨"DomainStatus.set_availability", [.availability, .price, .reason], true⟩,
   ⟨"DomainStatus.set_reason", [.reason], true⟩,
   ⟨"DomainStatus.set_tld_info", [.tld_metadata, .restricted, .price], false⟩,
   ⟨"NCAPICheck.run checked_apis append", [.sources_consulted], false⟩,
   ⟨"GandiAPICheck.run checked_apis append", [.sources_consulted], false⟩,
   ⟨"DomainrAPICheck.run checked_apis append", [.sources_consulted], false⟩]

/-- The `reason_str` computation of `set_availability`: the custom reason
when supplied and truthy, else the canned phrase for the verdict. -/
def conclusiveReasonText (v : Avail) (method_name : String)
    (custom_reason : Option String) : String :=
  match custom_reason with
  | some c => if c ≠ "" then c else genericReason v method_name
  | none => genericReason v method_name

/-- A record as it stands after WHOIS marked it available. -/
def availAfterWhois : DomainStatus :=
  { domain := "c.com", is_available := .available, price := "N/A",
    reason := "Domain is available (WHOISCheck)", tld_info := emptyTldInfo,
    restriction_flag := false, checked_apis := [] }

/-- A 150-character string, for exercising the truncation branch. -/
def longText : String := String.mk (List.replicate 150 'a')

/-- A WHOIS outcome whose error message carries an availability keyword. -/
def whoisAvailOutcome : WhoisOutcome := WhoisOutcome.err "no match for"

/-- A resolver that answers every record type with one A-style record. -/
def dnsAllA : String → DnsAnswer := fun _ => DnsAnswer.records ["1.2.3.4"]

/-- A record the DNS check marked registered. -/
def unavailableRecord : DomainStatus :=
  { domain := "u.com", is_available := .unavailable, price := "N/A",
    reason := "Domain is registered (DNSCheck)", tld_info := emptyTldInfo,
    restriction_flag := false, checked_apis := [] }

/-- One verdict-affecting update that a check of the pipeline applies to one
Status Record.  Each constructor carries the remote data the check observed;
the hypotheses record what the driver guarantees at the moment the update
runs: the bulk registrar stage's working set holds only `Available`/`Unknown`
records (its stage filter), and the WHOIS check runs in the single-domain
stage, where no check can yet have produced `Premium`
(`runSingle_never_premium`). -/
inductive PipelineStep : DomainStatus → DomainStatus → Prop where
  | tld (tlds_dict : String → Option TldInfo) (r : DomainStatus) :
      PipelineStep r (TLDCheck_run tlds_dict r).1
  | dns (resolve : String → DnsAnswer) (r : DomainStatus) :
      PipelineStep r (DNSCheck_run resolve r).1
  | whois (o : WhoisOutcome) (r : DomainStatus) (hr : r.is_available ≠ .premium) :
      PipelineStep r (WHOISCheck_run o r).1
  | ncapi (info : NCResp) (r : DomainStatus)
      (hr : r.is_available = .available ∨ r.is_available = .unknown) :
      PipelineStep r (NCAPICheck_update info r)
  | gandi (a p : Option String) (r : DomainStatus) :
      PipelineStep r (GandiAPICheck_update a p r)
  | domainr (info : DomainrStatus) (r : DomainStatus) :
      PipelineStep r (DomainrAPICheck_update info r)

/-- A record the bulk registrar check marked premium. -/
def premiumRecord : DomainStatus :=
  { domain := "d.com", is_available := .premium, price := "777",
    reason := "Domain is premium and available (NCAPICheck)",
    tld_info := emptyTldInfo, restriction_flag := false,
    checked_apis := ["NCAPICheck"] }

/-- An answer carrying no evidence of registration: an empty record list or
any of the exception outcomes (which abort the record-type loop). -/
def dnsNoEvidence : DnsAnswer → Bool
  | .records l => l.isEmpty
  | _ => true

/-- A resolver answering the `A` query with the `.ws` parking placeholder. -/
def wsParkingResolve : String → DnsAnswer :=
  fun t => if t = "A" then DnsAnswer.records ["64.70.19.203"] else DnsAnswer.noAnswer

/-- Rule table with one registrable suffix `xx` whose table minimum label
length is 3 (and maximum 63). -/
def c9Table : String → Option TldInfo := fun s =>
  if s = "xx" then
    some { can_register := true, min_length := "3", max_length := "63",
           restrictions := "", average_price := "N/A", premium := false }
  else none

/-- A record whose availability field is `Available` but whose TLD metadata
carries the premium flag: reported as `"Premium"`, sorted as `Available`. -/
def c10_flagged : DomainStatus :=
  { domain := "a.com", is_available := .available, price := "100", reason := "",
    tld_info := { can_register := true, min_length := "1", max_length := "63",
                  restrictions := "", average_price := "N/A", premium := true },
    restriction_flag := false, checked_apis := [] }

/-- An ordinary unrestricted `Available` record with a higher price. -/
def c10_plain : DomainStatus :=
  { domain := "b.com", is_available := .available, price := "200", reason := "",
    tld_info := emptyTldInfo, restriction_flag := false, checked_apis := [] }

/-! ## Helper lemmas -/

lemma string_mk_append (l m : List Char) :
    (String.mk l ++ String.mk m) = String.mk (l ++ m) := rfl

lemma string_length_mk (l : List Char) : (String.mk l).length = l.length := rfl

lemma capReason_length_le (s : String) : (capReason s).length ≤ 140 := by
  unfold capReason strTake
  split_ifs with h
  · have h3 : ("..." : String) = String.mk ['.', '.', '.'] := rfl
    have hlen : (String.mk (s.data.take 137) ++ String.mk ['.', '.', '.']).length =
        (s.data.take 137).length + 3 := by
      rw [string_mk_append, string_length_mk, List.length_append]
      rfl
    rw [h3, hlen]
    have := List.length_take_le 137 s.data
    omega
  · omega

lemma capReason_length_of_gt (s : String) (h : s.length > 140) :
    (capReason s).length = 140 := by
  unfold capReason strTake
  rw [if_pos h]
  have h3 : ("..." : String) = String.mk ['.', '.', '.'] := rfl
  rw [h3, string_mk_append, string_length_mk, List.length_append]
  have htake : (s.data.take 137).length = 137 := by
    rw [List.length_take]
    have : s.data.length = s.length := rfl
    omega
  rw [htake]
  rfl

lemma add_reason_is_available (ds : DomainStatus) (r mn : String) :
    (add_reason ds r mn).is_available = ds.is_available := by
  simp only [add_reason]
  split_ifs <;> rfl

lemma set_availability_is_available (ds : DomainStatus) (v : Avail) (p : Option String)
    (mn : String) (c : Option String) :
    (set_availability ds v p mn c).is_available = v := by
  cases p <;> simp only [set_availability] <;> split_ifs <;> rfl

lemma set_tld_info_is_available (ds : DomainStatus) (info : TldInfo) :
    (set_tld_info ds info).is_available = ds.is_available := by
  simp only [set_tld_info]
  split_ifs <;> rfl

/-- C3: while availability is conclusive (not `Unknown`), `add_reason` is a
no-op leaving the whole record — in particular `reason` — unchanged; while
it is `Unknown`, `add_reason` concatenates `"<reason> (<source>)"` onto the
existing trail with `"; "` separation and re-applies the 140-character cap. -/
theorem C3_append_while_unknown_only (ds : DomainStatus) (reason mn : String) :
    (ds.is_available ≠ .unknown → add_reason ds reason mn = ds) ∧
    (ds.is_available = .unknown → mn ≠ "" →
      (add_reason ds reason mn).reason = capReason
        (if ds.reason ≠ "" then ds.reason ++ "; " ++ (reason ++ " (" ++ mn ++ ")")
         else reason ++ " (" ++ mn ++ ")")) := by
  constructor
  · intro h
    simp only [add_reason, if_neg h]
  · intro h hmn
    simp only [add_reason]
    split_ifs <;> rfl

/-- Witness for C3: on a conclusive record `add_reason` changes nothing; on
a fresh (unknown) record it stores the appended, capped trail. -/
theorem C3_append_while_unknown_only_witness :
    add_reason availAfterWhois "late note" "NCAPICheck" = availAfterWhois ∧
    (add_reason (initStatus "a.b") "x" "M").reason = "x (M)" := by
  constructor
  · exact (C3_append_while_unknown_only availAfterWhois "late note" "NCAPICheck").1
      (by decide)
  · rw [(C3_append_while_unknown_only (initStatus "a.b") "x" "M").2 rfl (by decide)]
    decide

/-- C4: for a conclusive verdict, the reason `set_availability` stores is the
capped computed string — the custom reason if supplied (else the canned
phrase suffixed with the source), with the TLD restriction text appended when
the verdict is `Available` and the record restricted — and that computed
string does not depend on the prior `reason`: the prior trail is replaced,
never appended to.  The side condition ties the restriction flag to a
non-empty stored restriction text, which is how `set_tld_info` establishes
the flag. -/
theorem C4_conclusive_reason_overwrite (ds : DomainStatus) (v : Avail)
    (p : Option String) (mn : String) (c : Option String)
    (hv : v = .available ∨ v = .premium ∨ v = .unavailable)
    (hres : ds.restriction_flag = true → ds.tld_info.restrictions ≠ "") :
    (set_availability ds v p mn c).reason =
      capReason (if v = .available ∧ ds.restriction_flag = true then
        conclusiveReasonText v mn c ++ "; " ++ ds.tld_info.restrictions
      else conclusiveReasonText v mn c) := by
  cases p <;> simp only [set_availability, conclusiveReasonText] <;>
    split_ifs <;> first | rfl | tauto

/-- Witness for C4, the bulk-premium-upgrade scenario: a record `Available`
after WHOIS upgraded to `Premium` at price 1200 has its earlier reason fully
replaced by the premium phrase, and carries the new price. -/
theorem C4_conclusive_reason_overwrite_witness :
    (set_availability availAfterWhois .premium (some "1200") "GandiAPICheck"
      none).reason = "Domain is premium and available (GandiAPICheck)" ∧
    (set_availability availAfterWhois .premium (some "1200") "GandiAPICheck"
      none).price = "1200" := by
  constructor
  · rw [C4_conclusive_reason_overwrite availAfterWhois .premium (some "1200")
      "GandiAPICheck" none (Or.inr (Or.inl rfl)) (by decide)]
    decide
  · decide

/-- C5: every reason stored by `add_reason`, `set_availability` or
`set_reason` has length at most 140 (for `add_reason` under the invariant
that the existing trail already respects the cap, since its no-op branch
keeps it); and whenever the computed text exceeds 140 characters the stored
string is exactly its first 137 characters followed by `"..."` — nothing
before the cut is lost — with total length exactly 140. -/
theorem C5_reason_cap :
    (∀ (ds : DomainStatus) (reason mn : String), ds.reason.length ≤ 140 →
      (add_reason ds reason mn).reason.length ≤ 140) ∧
    (∀ (ds : DomainStatus) (v : Avail) (p : Option String) (mn : String)
      (c : Option String), (set_availability ds v p mn c).reason.length ≤ 140) ∧
    (∀ (ds : DomainStatus) (reason : String),
      (set_reason ds reason).reason.length ≤ 140) ∧
    (∀ s : String, s.length > 140 → capReason s = strTake s 137 ++ "...") ∧
    (∀ s : String, s.length > 140 → (capReason s).length = 140) := by
  refine ⟨?_, ?_, ?_, ?_, ?_⟩
  · intro ds reason mn h
    simp only [add_reason]
    split_ifs <;> first | exact h | exact capReason_length_le _
  · intro ds v p mn c
    cases p <;> simp only [set_availability] <;> split_ifs <;>
      exact capReason_length_le _
  · intro ds reason
    exact capReason_length_le _
  · intro s h
    simp only [capReason, if_pos h]
  · intro s h
    exact capReason_length_of_gt s h

set_option maxRecDepth 4096 in
/-- Witness for C5: a capped append on a fresh record, and the exact
truncation shape on a 150-character text. -/
theorem C5_reason_cap_witness :
    (add_reason (initStatus "a.b") "x" "M").reason.length ≤ 140 ∧
    capReason longText = strTake longText 137 ++ "..." ∧
    (capReason longText).length = 140 := by
  refine ⟨C5_reason_cap.1 (initStatus "a.b") "x" "M" (by decide),
    C5_reason_cap.2.2.2.1 longText (by decide),
    C5_reason_cap.2.2.2.2 longText (by decide)⟩

/-- C2 counterexample: not every Status Record mutation site runs under the
per-record lock — `set_tld_info`, which writes `tld_metadata`, `restricted`
and (default) `price`, performs its writes with no lock acquisition, so the
claim that every mutation of the record's fields holds the lock is false. -/
theorem C2_counterexample :
    ¬ (∀ s ∈ mutationSites, s.under_lock = true) ∧
    (MutationSite.mk "DomainStatus.set_tld_info"
      [RecordField.tld_metadata, RecordField.restricted, RecordField.price] false)
      ∈ mutationSites := by decide

/-- C2 amended: every mutation site that writes `availability` or `reason`
(the three methods `add_reason`, `set_availability`, `set_reason`) does hold
the per-record lock; the unlocked sites are `set_tld_info`'s writes of
`tld_metadata`/`restricted`/`price` and the checks' `checked_apis` appends. -/
theorem C2_lock_discipline_amended : ∀ s ∈ mutationSites,
    (RecordField.availability ∈ s.fields ∨ RecordField.reason ∈ s.fields) →
    s.under_lock = true := by decide

/-- Witness for C2: `set_availability`'s site is under the lock. -/
theorem C2_lock_discipline_amended_witness :
    (MutationSite.mk "DomainStatus.set_availability"
      [RecordField.availability, RecordField.price, RecordField.reason]
      true).under_lock = true :=
  C2_lock_discipline_amended _ (by decide) (Or.inl (by decide))

/-- C6 counterexample: after the WHOIS check signals "verdict reached" with
availability `Available`, the driver does *not* stop — the next single-domain
check still runs (here a DNS check, which flips the record to `Unavailable`),
so the claim that no further single-domain check is run once availability
became `Available` is false. -/
theorem C6_counterexample :
    (runSingle (SingleCheck.whois whoisAvailOutcome) (initStatus "x.com")).2 = true ∧
    (runSingle (SingleCheck.whois whoisAvailOutcome)
      (initStatus "x.com")).1.is_available = Avail.available ∧
    (process_domain "x.com" [SingleCheck.whois whoisAvailOutcome,
      SingleCheck.dns dnsAllA]).is_available = Avail.unavailable := by decide

/-- C6 amended: the single-domain loop breaks exactly when a check both
signals "verdict reached" and left availability `Unavailable`; in every
other case — including availability having become `Available` — the loop
continues with the remaining single-domain checks. -/
theorem C6_single_stage_break (m : SingleCheck) (rest : List SingleCheck)
    (ds : DomainStatus) :
    ((runSingle m ds).2 = true → (runSingle m ds).1.is_available = .unavailable →
      processGo (m :: rest) ds = (runSingle m ds).1) ∧
    ((runSingle m ds).2 = false ∨ (runSingle m ds).1.is_available ≠ .unavailable →
      processGo (m :: rest) ds = processGo rest (runSingle m ds).1) := by
  constructor
  · intro h1 h2
    simp [processGo, h1, h2]
  · intro h
    rcases h with h | h
    · simp [processGo, h]
    · simp [processGo, h]

/-- Witness for C6: a DNS hit stops the single-domain loop before WHOIS. -/
theorem C6_single_stage_break_witness :
    processGo [SingleCheck.dns dnsAllA, SingleCheck.whois whoisAvailOutcome]
      (initStatus "y.com") =
      (runSingle (SingleCheck.dns dnsAllA) (initStatus "y.com")).1 :=
  (C6_single_stage_break (SingleCheck.dns dnsAllA)
    [SingleCheck.whois whoisAvailOutcome] (initStatus "y.com")).1
    (by decide) (by decide)

/-- C7: the driver's stage-to-filter mapping is fixed — the bulk registrar
stage's working set is exactly the records whose availability is `Available`
or `Unknown`, the market-suggestion and per-domain confirmation stages'
working sets are exactly the records whose availability is `Unknown`; a
record marked `Unavailable` passes no stage's filter, and each stage's
filter is evaluated on the record list as it stands after the previous
stage completed. -/
theorem C7_stage_filters :
    (∀ (resp : String → Option NCResp) (ds : DomainStatus),
      batchFilter (BatchStage.ncapi resp) ds = true ↔
        (ds.is_available = .available ∨ ds.is_available = .unknown)) ∧
    (∀ (a p : String → Option String) (ds : DomainStatus),
      batchFilter (BatchStage.gandi a p) ds = true ↔ ds.is_available = .unknown) ∧
    (∀ (resp : String → Option DomainrStatus) (ds : DomainStatus),
      batchFilter (BatchStage.domainr resp) ds = true ↔ ds.is_available = .unknown) ∧
    (∀ (st : BatchStage) (ds : DomainStatus), ds.is_available = .unavailable →
      batchFilter st ds = false) ∧
    (∀ (st : BatchStage) (rest : List BatchStage) (statuses : List DomainStatus),
      runBatches (st :: rest) statuses = runBatches rest (runStage st statuses)) := by
  refine ⟨?_, ?_, ?_, ?_, ?_⟩
  · intro resp ds
    cases h : ds.is_available <;> simp [batchFilter, h] <;> decide
  · intro a p ds
    cases h : ds.is_available <;> simp [batchFilter, h] <;> decide
  · intro resp ds
    cases h : ds.is_available <;> simp [batchFilter, h] <;> decide
  · intro st ds h
    cases st <;> simp [batchFilter, h] <;> decide
  · intro st rest statuses
    rfl

/-- Witness for C7: an `Unavailable` record is not in the market-suggestion
stage's working set. -/
theorem C7_stage_filters_witness :
    batchFilter (BatchStage.gandi (fun _ => none) (fun _ => none))
      unavailableRecord = false :=
  C7_stage_filters.2.2.2.1 _ unavailableRecord rfl

/-! ## C1: availability monotonicity, check by check -/

lemma TLDCheck_run_avail (t : String → Option TldInfo) (ds : DomainStatus) :
    (TLDCheck_run t ds).1.is_available = ds.is_available ∨
    (TLDCheck_run t ds).1.is_available = .unavailable := by
  simp only [TLDCheck_run]
  repeat' split
  all_goals
    first
      | (right; exact set_availability_is_available _ _ _ _ _)
      | (left; rw [set_tld_info_is_available, set_tld_info_is_available])

lemma dnsGo_avail (resolve : String → DnsAnswer) (types : List String)
    (ds : DomainStatus) :
    (dnsGo resolve types ds).1.is_available = ds.is_available ∨
    (dnsGo resolve types ds).1.is_available = .unavailable := by
  induction types with
  | nil => left; rfl
  | cons t rest ih =>
    simp only [dnsGo]
    repeat' split
    all_goals
      first
        | (right; exact set_availability_is_available _ _ _ _ _)
        | exact ih
        | (left; rfl)

lemma WHOISCheck_run_avail (o : WhoisOutcome) (ds : DomainStatus) :
    (WHOISCheck_run o ds).1.is_available = ds.is_available ∨
    (WHOISCheck_run o ds).1.is_available = .available ∨
    (WHOISCheck_run o ds).1.is_available = .unavailable := by
  simp only [WHOISCheck_run]
  repeat' split
  all_goals
    first
      | (left; exact add_reason_is_available _ _ _)
      | (right; left; exact set_availability_is_available _ _ _ _ _)
      | (right; right; exact set_availability_is_available _ _ _ _ _)
      | (left; rfl)

lemma NCAPICheck_update_avail (i : NCResp) (ds : DomainStatus) :
    (NCAPICheck_update i ds).is_available = ds.is_available ∨
    (NCAPICheck_update i ds).is_available ≠ .unknown := by
  simp only [NCAPICheck_update]
  repeat' split
  all_goals
    first
      | (left; exact add_reason_is_available _ _ _)
      | (right; rw [set_availability_is_available]; decide)

lemma GandiAPICheck_update_avail (a p : Option String) (ds : DomainStatus) :
    (GandiAPICheck_update a p ds).is_available = ds.is_available ∨
    (GandiAPICheck_update a p ds).is_available ≠ .unknown := by
  simp only [GandiAPICheck_update]
  repeat' split
  all_goals
    first
      | (left; exact add_reason_is_available _ _ _)
      | (right; rw [set_availability_is_available]; decide)
      | (left; rfl)

lemma GandiAPICheck_update_premium (a p : Option String) (ds : DomainStatus)
    (h : ds.is_available = .premium) :
    (GandiAPICheck_update a p ds).is_available ≠ .available := by
  simp only [GandiAPICheck_update]
  repeat' split
  all_goals
    first
      | (exact absurd h (by assumption))
      | (rw [set_availability_is_available]; decide)
      | (rw [add_reason_is_available]; simp [h])
      | simp [h]

lemma DomainrAPICheck_update_avail (i : DomainrStatus) (ds : DomainStatus) :
    (DomainrAPICheck_update i ds).is_available = ds.is_available ∨
    (DomainrAPICheck_update i ds).is_available ≠ .unknown := by
  simp only [DomainrAPICheck_update]
  repeat' split
  all_goals
    first
      | (left; rfl)
      | (left; exact add_reason_is_available _ _ _)
      | (right; rw [add_reason_is_available, set_availability_is_available]; decide)
      | (right; rw [set_availability_is_available]; decide)

lemma DomainrAPICheck_update_premium (i : DomainrStatus) (ds : DomainStatus)
    (h : ds.is_available = .premium) :
    (DomainrAPICheck_update i ds).is_available ≠ .available := by
  simp only [DomainrAPICheck_update]
  repeat' split
  all_goals
    first
      | (exact absurd h (by assumption))
      | (exact absurd (h.symm.trans (by assumption)) (by decide))
      | (rw [set_availability_is_available]; decide)
      | (rw [add_reason_is_available]; simp [h])
      | simp [h]

/-- No single-domain check can produce a `Premium` verdict, so a record
entering the WHOIS check — which runs in the single-domain stage, before any
batch stage — is never `Premium`. -/
lemma DNSCheck_run_avail (resolve : String → DnsAnswer) (ds : DomainStatus) :
    (DNSCheck_run resolve ds).1.is_available = ds.is_available ∨
    (DNSCheck_run resolve ds).1.is_available = .unavailable :=
  dnsGo_avail resolve ["A", "MX", "NS"] ds

lemma runSingle_never_premium (m : SingleCheck) (ds : DomainStatus)
    (h : ds.is_available ≠ .premium) :
    (runSingle m ds).1.is_available ≠ .premium := by
  cases m with
  | tld t =>
    simp only [runSingle]
    rcases TLDCheck_run_avail t ds with hh | hh <;> rw [hh]
    · exact h
    · decide
  | dns resolve =>
    simp only [runSingle]
    rcases DNSCheck_run_avail resolve ds with hh | hh <;> rw [hh]
    · exact h
    · decide
  | whois o =>
    simp only [runSingle]
    rcases WHOISCheck_run_avail o ds with hh | hh | hh <;> rw [hh]
    · exact h
    · decide
    · decide

/-- C1: across every pipeline update, a conclusive availability
(`Available`, `Premium` or `Unavailable`) is never reset to `Unknown`, and a
`Premium` record is never changed to `Available` — for the market-suggestion
and per-domain confirmation checks this holds unconditionally thanks to
their explicit guards, and for the others it is enforced by the driver's
stage filters recorded in the step hypotheses. -/
theorem C1_monotonic_conclusiveness (r r' : DomainStatus) (h : PipelineStep r r') :
    (r.is_available ≠ .unknown → r'.is_available ≠ .unknown) ∧
    (r.is_available = .premium → r'.is_available ≠ .available) := by
  cases h with
  | tld tlds_dict r =>
    rcases TLDCheck_run_avail tlds_dict r with hh | hh
    · exact ⟨fun hne => by rw [hh]; exact hne, fun hp => by rw [hh, hp]; decide⟩
    · exact ⟨fun _ => by rw [hh]; decide, fun _ => by rw [hh]; decide⟩
  | dns resolve r =>
    rcases DNSCheck_run_avail resolve r with hh | hh
    · exact ⟨fun hne => by rw [hh]; exact hne, fun hp => by rw [hh, hp]; decide⟩
    · exact ⟨fun _ => by rw [hh]; decide, fun _ => by rw [hh]; decide⟩
  | whois o r hr =>
    refine ⟨?_, fun hp => absurd hp hr⟩
    intro hne
    rcases WHOISCheck_run_avail o r with hh | hh | hh <;> rw [hh]
    · exact hne
    · decide
    · decide
  | ncapi info r hr =>
    constructor
    · intro hne
      rcases NCAPICheck_update_avail info r with hh | hh
      · rw [hh]; exact hne
      · exact hh
    · intro hp
      rcases hr with h | h <;> exact absurd (hp.symm.trans h) (by decide)
  | gandi a p r =>
    constructor
    · intro hne
      rcases GandiAPICheck_update_avail a p r with hh | hh
      · rw [hh]; exact hne
      · exact hh
    · exact fun hp => GandiAPICheck_update_premium a p r hp
  | domainr info r =>
    constructor
    · intro hne
      rcases DomainrAPICheck_update_avail info r with hh | hh
      · rw [hh]; exact hne
      · exact hh
    · exact fun hp => DomainrAPICheck_update_premium info r hp

/-- Witness for C1: the market-suggestion check, told a `Premium` record is
plainly available, does not change it to `Available` (its guard fires). -/
theorem C1_monotonic_conclusiveness_witness :
    (GandiAPICheck_update (some "available") (some "5")
      premiumRecord).is_available ≠ Avail.available :=
  (C1_monotonic_conclusiveness premiumRecord _
    (PipelineStep.gandi (some "available") (some "5") premiumRecord)).2 rfl

lemma dnsGo_inconclusive (resolve : String → DnsAnswer) (types : List String)
    (ds : DomainStatus) (h : ∀ t ∈ types, dnsNoEvidence (resolve t) = true) :
    dnsGo resolve types ds = (ds, false) := by
  induction types with
  | nil => rfl
  | cons t rest ih =>
    have ht := h t (by simp)
    have hrest : ∀ u ∈ rest, dnsNoEvidence (resolve u) = true :=
      fun u hu => h u (by simp [hu])
    simp only [dnsGo]
    rcases he : resolve t with l | _ | _ | _
    all_goals simp only [he]
    all_goals
      first
        | rfl
        | (rw [he] at ht
           simp only [dnsNoEvidence, List.isEmpty_iff] at ht
           subst ht
           simpa using ih hrest)

/-- C8: the DNS check walks the fixed record-type list `A`, `MX`, `NS`.  If
every queried type yields no records or an exception, the record is returned
untouched (inconclusive, nothing appended to the reason).  The first type
answered with a non-empty record list marks the record `Unavailable` with
that type named in the reason — except the `.ws` parking placeholder
`64.70.19.203` on an `A` answer, which ends the check with the record
untouched. -/
theorem C8_dns_resolution (resolve : String → DnsAnswer) (ds : DomainStatus) :
    ((∀ t ∈ (["A", "MX", "NS"] : List String), dnsNoEvidence (resolve t) = true) →
      DNSCheck_run resolve ds = (ds, false)) ∧
    (∀ a l, resolve "A" = .records (a :: l) →
      ¬(strEndsWith ds.domain ".ws" = true ∧ a = "64.70.19.203") →
      DNSCheck_run resolve ds = (set_availability ds .unavailable none "DNSCheck"
        (some "A records found (domain is registered)"), true)) ∧
    (∀ a l, resolve "A" = .records [] → resolve "MX" = .records (a :: l) →
      DNSCheck_run resolve ds = (set_availability ds .unavailable none "DNSCheck"
        (some "MX records found (domain is registered)"), true)) ∧
    (∀ a l, resolve "A" = .records [] → resolve "MX" = .records [] →
      resolve "NS" = .records (a :: l) →
      DNSCheck_run resolve ds = (set_availability ds .unavailable none "DNSCheck"
        (some "NS records found (domain is registered)"), true)) ∧
    (∀ l, strEndsWith ds.domain ".ws" = true →
      resolve "A" = .records ("64.70.19.203" :: l) →
      DNSCheck_run resolve ds = (ds, false)) := by
  refine ⟨?_, ?_, ?_, ?_, ?_⟩
  · intro h
    exact dnsGo_inconclusive resolve _ ds h
  · intro a l hA hnp
    simp only [DNSCheck_run, dnsGo, hA]
    rw [if_pos (show (a :: l : List String) ≠ [] by simp)]
    rw [if_neg (show ¬(strEndsWith ds.domain ".ws" = true ∧ True ∧
      (a :: l).headD "" = "64.70.19.203") by simpa using hnp)]
    rfl
  · intro a l hA hMX
    simp only [DNSCheck_run, dnsGo, hA, hMX]
    split_ifs <;> first | rfl | simp_all
  · intro a l hA hMX hNS
    simp only [DNSCheck_run, dnsGo, hA, hMX, hNS]
    split_ifs <;> first | rfl | simp_all
  · intro l hws hA
    simp only [DNSCheck_run, dnsGo, hA, hws]
    split_ifs <;> first | rfl | simp_all

/-- Witness for C8: the `.ws` parking answer is treated as no evidence, and a
real `A` record marks the domain registered with `A` named in the reason. -/
theorem C8_dns_resolution_witness :
    DNSCheck_run wsParkingResolve (initStatus "ab.ws") = (initStatus "ab.ws", false) ∧
    DNSCheck_run dnsAllA (initStatus "x.com") =
      (set_availability (initStatus "x.com") .unavailable none "DNSCheck"
        (some "A records found (domain is registered)"), true) := by
  constructor
  · exact (C8_dns_resolution wsParkingResolve (initStatus "ab.ws")).2.2.2.2 []
      (by decide) (by decide)
  · exact (C8_dns_resolution dnsAllA (initStatus "x.com")).2.1 "1.2.3.4" [] rfl
      (by decide)

lemma set_availability_unavailable_custom (ds : DomainStatus) (p : Option String)
    (mn : String) (c : String) (hc : c ≠ "") :
    (set_availability ds .unavailable p mn (some c)).reason = capReason c := by
  cases p <;> simp only [set_availability] <;> split_ifs <;> first | rfl | tauto

lemma set_tld_info_tld_info (ds : DomainStatus) (info : TldInfo) :
    (set_tld_info ds info).tld_info = info := by
  simp only [set_tld_info]
  split_ifs <;> rfl

lemma string_length_append (x y : String) : (x ++ y).length = x.length + y.length := by
  cases x with
  | mk xd =>
    cases y with
    | mk yd =>
      rw [string_mk_append, string_length_mk, List.length_append]
      rfl

lemma append_ne_empty_left (x y : String) (hx : x.length ≠ 0) : x ++ y ≠ "" := by
  intro he
  have hl := congrArg String.length he
  rw [string_length_append] at hl
  simp at hl
  exact hx hl.1

/-- C9 counterexample: for `"ab.xx"` whose suffix *is* in the rule table with
`min_length = "3"`, the label `"ab"` (length 2) is below the table's minimum,
yet the structural check leaves availability `Unknown` and reports no verdict
— the source hardcodes the minimum to 1 and never reads the table's
`min_length`, so the claim that label lengths outside the *table's*
`[min,max]` bounds are rejected is false. -/
theorem C9_counterexample :
    c9Table "xx" = some ⟨true, "3", "63", "", "N/A", false⟩ ∧
    "ab".length < 3 ∧
    (TLDCheck_run c9Table (initStatus "ab.xx")).1.is_available = Avail.unknown ∧
    (TLDCheck_run c9Table (initStatus "ab.xx")).2 = false := by decide

/-- C9 amended: the structural check marks a record `Unavailable` with the
stated reason when the domain has no dot, when its lowercased suffix is
absent from the rule table, when the suffix's rule forbids registration, or
when the label is empty (the minimum length is the hardcoded constant 1 —
the table's `min_length` is ignored) or exceeds the table's parsed, non-zero
`max_length`; otherwise it leaves availability untouched, attaches the
suffix's metadata, and reports no verdict. -/
theorem C9_structural_check_amended (t : String → Option TldInfo)
    (ds : DomainStatus) :
    (ds.domain.data.contains '.' = false →
      (TLDCheck_run t ds).1.is_available = .unavailable ∧
      (TLDCheck_run t ds).1.reason = "Invalid domain format" ∧
      (TLDCheck_run t ds).2 = true) ∧
    (ds.domain.data.contains '.' = true →
      t (strLower (rsplitDot ds.domain).2) = none →
      (TLDCheck_run t ds).1.is_available = .unavailable ∧
      (TLDCheck_run t ds).1.reason = "TLD not recognized" ∧
      (TLDCheck_run t ds).2 = true) ∧
    (∀ info, ds.domain.data.contains '.' = true →
      t (strLower (rsplitDot ds.domain).2) = some info →
      info.can_register = false →
      (TLDCheck_run t ds).1.is_available = .unavailable ∧
      (TLDCheck_run t ds).1.reason = capReason (if info.restrictions ≠ "" then
        "TLD cannot be registered" ++ "; " ++ info.restrictions
      else "TLD cannot be registered") ∧
      (TLDCheck_run t ds).2 = true) ∧
    (∀ info, ds.domain.data.contains '.' = true →
      t (strLower (rsplitDot ds.domain).2) = some info →
      info.can_register = true →
      ((rsplitDot ds.domain).1.length < 1 ∨
        (∃ m, pyIntOfString info.max_length = some m ∧ m ≠ 0 ∧
          ((rsplitDot ds.domain).1.length : Int) > m)) →
      (TLDCheck_run t ds).1.is_available = .unavailable ∧
      (TLDCheck_run t ds).2 = true) ∧
    (∀ info, ds.domain.data.contains '.' = true →
      t (strLower (rsplitDot ds.domain).2) = some info →
      info.can_register = true →
      ¬ (rsplitDot ds.domain).1.length < 1 →
      (∀ m, pyIntOfString info.max_length = some m → m ≠ 0 →
        ¬ ((rsplitDot ds.domain).1.length : Int) > m) →
      (TLDCheck_run t ds).1.is_available = ds.is_available ∧
      (TLDCheck_run t ds).1.tld_info = info ∧
      (TLDCheck_run t ds).2 = false) := by
  refine ⟨?_, ?_, ?_, ?_, ?_⟩
  · intro h
    simp only [TLDCheck_run]
    rw [if_pos (show ¬ ds.domain.data.contains '.' = true by simp_all)]
    refine ⟨set_availability_is_available _ _ _ _ _, ?_, rfl⟩
    rw [set_availability_unavailable_custom _ _ _ _ (by decide)]
    decide
  · intro h hn
    simp only [TLDCheck_run]
    rw [if_neg (show ¬ ¬ ds.domain.data.contains '.' = true by simp_all)]
    simp only [hn]
    refine ⟨set_availability_is_available _ _ _ _ _, ?_, trivial⟩
    rw [set_availability_unavailable_custom _ _ _ _ (by decide)]
    decide
  · intro info h hsome hcr
    simp only [TLDCheck_run]
    rw [if_neg (show ¬ ¬ ds.domain.data.contains '.' = true by simp_all)]
    simp only [hsome]
    rw [if_pos (show ¬ info.can_register = true by simp_all)]
    refine ⟨set_availability_is_available _ _ _ _ _, ?_, rfl⟩
    split_ifs with hr
    · exact set_availability_unavailable_custom _ _ _ _
        (append_ne_empty_left _ _ (by decide))
    · exact set_availability_unavailable_custom _ _ _ _ (by decide)
  · intro info h hsome hcr hbad
    simp only [TLDCheck_run]
    rw [if_neg (show ¬ ¬ ds.domain.data.contains '.' = true by simp_all)]
    simp only [hsome]
    rw [if_neg (show ¬ ¬ info.can_register = true by simp_all)]
    have hli : ((if (rsplitDot ds.domain).1.length < 1 then ["too short (min 1)"]
        else []) ++
        (match pyIntOfString info.max_length with
         | some m => if m ≠ 0 ∧ ((rsplitDot ds.domain).1.length : Int) > m then
             ["too long (max " ++ toString m ++ ")"] else []
         | none => [])) ≠ [] := by
      rcases hbad with hlt | ⟨m, hm, hm0, hgt⟩
      · rw [if_pos hlt]
        simp
      · rw [hm]
        simp only [if_pos (And.intro hm0 hgt)]
        simp
    rw [if_pos hli]
    exact ⟨set_availability_is_available _ _ _ _ _, rfl⟩
  · intro info h hsome hcr hminok hmax
    simp only [TLDCheck_run]
    rw [if_neg (show ¬ ¬ ds.domain.data.contains '.' = true by simp_all)]
    simp only [hsome]
    rw [if_neg (show ¬ ¬ info.can_register = true by simp_all)]
    have hli : ((if (rsplitDot ds.domain).1.length < 1 then ["too short (min 1)"]
        else []) ++
        (match pyIntOfString info.max_length with
         | some m => if m ≠ 0 ∧ ((rsplitDot ds.domain).1.length : Int) > m then
             ["too long (max " ++ toString m ++ ")"] else []
         | none => [])) = [] := by
      rw [if_neg hminok]
      rcases hm : pyIntOfString info.max_length with _ | m
      · rfl
      · simp only []
        rw [if_neg (fun hc => hmax m hm hc.1 hc.2)]
        rfl
    rw [if_neg (fun hne => hne hli)]
    refine ⟨?_, ?_, rfl⟩
    · rw [set_tld_info_is_available, set_tld_info_is_available]
    · rw [set_tld_info_tld_info]

/-- Witness for C9, the structural-rejection scenario: `"ab.xx"` with `xx`
absent from the rule table ends `Unavailable` with reason
`"TLD not recognized"`. -/
theorem C9_structural_check_amended_witness :
    (TLDCheck_run (fun _ => none) (initStatus "ab.xx")).1.is_available =
      Avail.unavailable ∧
    (TLDCheck_run (fun _ => none) (initStatus "ab.xx")).1.reason =
      "TLD not recognized" ∧
    (TLDCheck_run (fun _ => none) (initStatus "ab.xx")).2 = true :=
  (C9_structural_check_amended (fun _ => none) (initStatus "ab.xx")).2.1
    (by decide) rfl

/-- C10 counterexample: `c10_flagged` is reported as class `Premium` (key
priority 3 per the claim) and `c10_plain` as `Available-unrestricted`
(priority 1), so the claim orders `c10_plain` strictly first; but the code's
comparator sorts `c10_flagged` strictly before `c10_plain` — `get_sort_key`
reads the stored availability field, not the reported output class. -/
theorem C10_counterexample :
    get_plain_availability c10_flagged = "Premium" ∧
    get_plain_availability c10_plain = "Available" ∧
    claimClassPriority c10_plain < claimClassPriority c10_flagged ∧
    sortKeyLt (get_sort_key c10_flagged) (get_sort_key c10_plain) = true := by
  decide

/-- C10 amended: the final order is ascending on `get_sort_key`, whose
primary key is computed from the *stored* availability field and restriction
flag — `Available`-unrestricted 1, `Available`-restricted 2, `Premium` 3,
`Unavailable` 4, `Unknown` 5 (so a record reported as `Premium` because of
its TLD premium flag still sorts as `Available`) — and whose secondary key
is the parsed price, with an unparsable or absent price (`none`) greater
than every real price; key comparison is lexicographic. -/
theorem C10_sort_key_amended (ds : DomainStatus) :
    (ds.is_available = .available → ds.restriction_flag = false →
      (get_sort_key ds).1 = 1) ∧
    (ds.is_available = .available → ds.restriction_flag = true →
      (get_sort_key ds).1 = 2) ∧
    (ds.is_available = .premium → (get_sort_key ds).1 = 3) ∧
    (ds.is_available = .unavailable → (get_sort_key ds).1 = 4) ∧
    (ds.is_available = .unknown → (get_sort_key ds).1 = 5) ∧
    (get_sort_key ds).2 = pyFloatOfString ds.price ∧
    (∀ d : Dec, priceLtB (some d) none = true) ∧
    (∀ x : Option Dec, priceLtB none x = false) ∧
    (∀ a b : Nat × Option Dec,
      sortKeyLt a b = (decide (a.1 < b.1) || (a.1 == b.1 && priceLtB a.2 b.2))) := by
  refine ⟨?_, ?_, ?_, ?_, ?_, rfl, ?_, ?_, ?_⟩
  · intro h hf
    simp [get_sort_key, availabilityPriority, h, hf]
  · intro h hf
    simp [get_sort_key, availabilityPriority, h, hf]
  · intro h
    simp [get_sort_key, availabilityPriority, h]
  · intro h
    simp [get_sort_key, availabilityPriority, h]
  · intro h
    simp [get_sort_key, availabilityPriority, h]
  · intro d
    rfl
  · intro x
    cases x <;> rfl
  · intro a b
    rfl

/-- Witness for C10: a genuine `Premium` record keys at priority 3, and a
real price sorts before an absent one. -/
theorem C10_sort_key_amended_witness :
    (get_sort_key premiumRecord).1 = 3 ∧
    priceLtB (some ⟨777, 0⟩) none = true :=
  ⟨(C10_sort_key_amended premiumRecord).2.2.1 rfl,
   (C10_sort_key_amended premiumRecord).2.2.2.2.2.2.1 ⟨777, 0⟩⟩
